import Mathlib

/-!
# Verification of the request-admission and recommendation-matching engine

Shallow embedding of the core of the `kr-name-suggester` repository:
the rate-limiting Admission Gate (`checkRateLimit`), the Vibe Classifier
(`vibeTag`), the Identifier Normalizer (`baseIdentity`, the JavaScript
`replace(/_\d+$/, '')`), the main API handler, and the shared-result read
path (`getServerSideProps` of the result page, embedded as `resolveShared`).

Timestamps are modelled as integers (milliseconds, as in `Date.now()`);
the sliding window is 60 * 1000 ms.  SQL `LIKE` patterns are modelled by
`likeMatch` with the standard `%` / `_` wildcard semantics used by the
store's `.like` filter.
-/

namespace KrName

/-! ## Identifier Normalizer -/

/-- One step of `s.replace(/_\d+$/, '')` on the reversed character list:
`rev` is the reversed string; strip the maximal leading run of decimal
digits, and if it is non-empty and followed by an underscore, drop both.
Returns the reversed form of the stripped string, or `none` when the
regex does not match. -/
def stripVariantRev (rev : List Char) : Option (List Char) :=
  let ds := rev.takeWhile Char.isDigit
  if ds.isEmpty then none
  else
    match rev.drop ds.length with
    | '_' :: rest => some rest
    | _ => none

/-- `baseIdentity identifier`: the JS expression
`identifier.replace(/_\d+$/, '')` — remove one trailing
underscore-plus-decimal-digits suffix when present, otherwise return the
input unchanged (src/unnamed/part_000 line 93; src/pages/result/[id].tsx
line 99). -/
def baseIdentity (s : String) : String :=
  match stripVariantRev s.data.reverse with
  | some rest => ⟨rest.reverse⟩
  | none => s

/-- Whether the regex `/_\d+$/` matches (the string ends in one
underscore followed by one or more decimal digits). -/
def hasVariantSuffix (s : String) : Bool :=
  (stripVariantRev s.data.reverse).isSome

/-! ## SQL LIKE patterns

The store's `.like(column, pattern)` filter uses SQL `LIKE` semantics:
`%` matches any (possibly empty) sequence of characters, `_` matches any
single character, every other pattern character matches itself. -/

/-- SQL `LIKE` matching of a pattern (first argument) against a subject
(second argument), both as character lists. -/
def likeMatch : List Char → List Char → Bool
  | [], cs => cs.isEmpty
  | p :: ps, [] => (p == '%') && likeMatch ps []
  | p :: ps, c :: cs =>
    if p == '%' then likeMatch ps (c :: cs) || likeMatch (p :: ps) cs
    else (p == '_' || p == c) && likeMatch ps cs
termination_by ps cs => (cs.length, ps.length)

/-- String form of `likeMatch`: does `s` match the LIKE pattern `pat`? -/
def likeStr (pat s : String) : Bool :=
  likeMatch pat.data s.data

/-! ## Vibe Classifier

Embeds the classifier of src/unnamed/part_000 lines 74–78 (identical to
src/pages/api/analyze.ts lines 72–78).  The likelihood signals arrive
from the vision provider as strings such as `"VERY_LIKELY"`. -/

/-- One detected face's emotion-likelihood signals, as delivered by the
external vision provider. -/
structure FaceAnnotation where
  joyLikelihood : String
  sorrowLikelihood : String
  angerLikelihood : String
deriving DecidableEq, Repr

/-- A likelihood signal counts as high when it is `LIKELY` or
`VERY_LIKELY` (the two top levels of the provider's 5-level ordinal). -/
def isHigh (l : String) : Bool :=
  l = "VERY_LIKELY" || l = "LIKELY"

/-- The Vibe Classifier: fixed-priority mapping from one face's
likelihood signals to a vibe tag, with `"friendly"` as the default. -/
def vibeTag (face : FaceAnnotation) : String :=
  if isHigh face.joyLikelihood then "friendly"
  else if isHigh face.sorrowLikelihood then "calm"
  else if isHigh face.angerLikelihood then "cool"
  else "friendly"

/-! ## Admission Gate (`checkRateLimit`)

Embeds src/unnamed/part_000 lines 21–28.  The count query
(`select count ... eq ip_address ... gte created_at (now − 60 s)`) may
fail, and its count field is nullable; both are reflected in
`QueryOutcome`.  The insert's own result is discarded by the code
(`await db.from('api_logs').insert(...)` with no error check). -/

/-- One row of the `api_logs` table: caller identity and timestamp
(milliseconds). -/
structure RateEvent where
  ip : String
  createdAt : Int
deriving DecidableEq, Repr

/-- Result of the gate's count query: a store error, or a success
carrying a nullable count. -/
inductive QueryOutcome where
  | failure
  | success (count : Option Nat)
deriving DecidableEq, Repr

/-- The decision core of `checkRateLimit`, line by line:
`if (error) return false; if (count !== null && count >= 5) return
false; insert; return true`.  Returns (admitted, insert issued). -/
def rateLimitStep : QueryOutcome → Bool × Bool
  | .failure => (false, false)
  | .success (some c) => if c ≥ 5 then (false, false) else (true, true)
  | .success none => (true, true)

/-- The sliding-window length: 60 * 1000 milliseconds. -/
def windowMs : Int := 60 * 1000

/-- The number of `api_logs` rows for identity `ip` with `created_at`
at or after `now − 60 s` — the count the gate's query returns on
success. -/
def recentCount (events : List RateEvent) (ip : String) (now : Int) : Nat :=
  (events.filter fun e => e.ip == ip && decide (now - windowMs ≤ e.createdAt)).length

/-- The state of the external store as the Admission Gate sees it:
the `api_logs` rows, plus fault flags for the two store calls the gate
makes (count query, insert). -/
structure Store where
  events : List RateEvent
  queryFails : Bool
  insertFails : Bool
deriving DecidableEq, Repr

/-- Outcome of the gate's count query against a `Store`. -/
def gateQuery (db : Store) (ip : String) (now : Int) : QueryOutcome :=
  if db.queryFails then .failure
  else .success (some (recentCount db.events ip now))

/-- `checkRateLimit ip` at time `now` against store `db`: the admission
decision together with the store after the gate's own insert (which adds
one row `⟨ip, now⟩` when issued and not lost to `insertFails`). -/
def checkRateLimit (db : Store) (ip : String) (now : Int) : Bool × Store :=
  let step := rateLimitStep (gateQuery db ip now)
  (step.1,
    if step.2 && !db.insertFails then
      { db with events := ⟨ip, now⟩ :: db.events }
    else db)

/-! ## Data model -/

/-- A row of the `korean_names` table (fields as in the page-level
type declarations plus the two columns the handler's queries filter
on). -/
structure NameRecord where
  id : Nat
  name_id : String
  name_hangul : String
  romaja_rr : String
  meaning_en_desc : String
  gender_primary : String
  vibe_tags : String
deriving DecidableEq, Repr

/-- A row of the `celebrities` table. -/
structure Celebrity where
  id : Nat
  name_id : String
  celebrity_name_romaja : String
  celebrity_group_or_profession : String
  image_url : String
deriving DecidableEq, Repr

/-! ## Store queries used by the handler and the read path -/

/-- `.eq('name_id', nid).single()`: the one row whose `name_id` equals
`nid`, or `none` when there are zero or several such rows (then
`.single()` reports an error and the data is null). -/
def singleByNameId (names : List NameRecord) (nid : String) : Option NameRecord :=
  match names.filter (fun r => r.name_id == nid) with
  | [n] => some n
  | _ => none

/-- `.eq('id', i).single()` on `korean_names`, as used by the read
path. -/
def singleById (names : List NameRecord) (i : Nat) : Option NameRecord :=
  match names.filter (fun r => r.id == i) with
  | [n] => some n
  | _ => none

/-- The gender clause of the candidate query (src/unnamed/part_000
lines 81–82): `eq('gender_primary','U')` when the request is `"U"`,
otherwise `in('gender_primary', [gender, 'U'])`. -/
def genderFilter (gender : String) (r : NameRecord) : Bool :=
  if gender == "U" then r.gender_primary == "U"
  else r.gender_primary == gender || r.gender_primary == "U"

/-- The candidate query (src/unnamed/part_000 lines 80–82):
`like('vibe_tags', '%'+vibe+'%')` composed with the gender clause. -/
def candidateQuery (names : List NameRecord) (vibe gender : String) : List NameRecord :=
  names.filter fun r => likeStr ("%" ++ vibe ++ "%") r.vibe_tags && genderFilter gender r

/-- The write path's companion lookup (src/unnamed/part_000 lines
96–99): all celebrities whose `name_id` equals the base identity. -/
def companionsByEq (celebs : List Celebrity) (base : String) : List Celebrity :=
  celebs.filter fun c => c.name_id == base

/-- The read path's companion lookup (src/pages/result/[id].tsx lines
100–103): `like('name_id', base + '%')`. -/
def companionsByLike (celebs : List Celebrity) (base : String) : List Celebrity :=
  celebs.filter fun c => likeStr (base ++ "%") c.name_id

/-- The shared-result read path (`getServerSideProps` of
src/pages/result/[id].tsx lines 87–109): look up the NameRecord by its
stable `id`; when present, recompute the base identity of its
`name_id` and fetch companions with the LIKE-prefix query. -/
def resolveShared (names : List NameRecord) (celebs : List Celebrity) (i : Nat) :
    Option (NameRecord × List Celebrity) :=
  match singleById names i with
  | some n => some (n, companionsByLike celebs (baseIdentity n.name_id))
  | none => none

/-! ## The main API handler (src/unnamed/part_000 lines 33–112) -/

/-- A request as the handler sees it: method, the two address sources,
and the three body fields (absent = `none`). -/
structure ApiRequest where
  method : String
  xForwardedFor : Option String
  remoteAddress : Option String
  image : Option String
  gender : Option String
  age : Option String
deriving DecidableEq, Repr

/-- JavaScript falsiness of an optional string field: absent or
empty. -/
def falsy : Option String → Bool
  | none => true
  | some s => s.isEmpty

/-- The caller identity (line 41):
`req.headers['x-forwarded-for'] || req.socket.remoteAddress ||
'127.0.0.1'` — the whole header value when present and non-empty, else
the socket address when present and non-empty, else `"127.0.0.1"`. -/
def callerIp (req : ApiRequest) : String :=
  match req.xForwardedFor with
  | some s =>
    if s.isEmpty then
      match req.remoteAddress with
      | some r => if r.isEmpty then "127.0.0.1" else r
      | none => "127.0.0.1"
    else s
  | none =>
    match req.remoteAddress with
    | some r => if r.isEmpty then "127.0.0.1" else r
    | none => "127.0.0.1"

/-- The externally supplied, per-request non-determinism: the tables,
the vision call's outcome (a thrown error, or a possibly-missing
`faceAnnotations` array), and the random draw used for selection. -/
structure Env where
  names : List NameRecord
  celebs : List Celebrity
  vision : Except Unit (Option (List FaceAnnotation))
  pick : Nat

/-- What one handler run produces: the HTTP status, the store after the
gate's side effect, whether the image was submitted to the external
classifier, and the success payload (name plus companion list). -/
structure HandlerResult where
  status : Nat
  db : Store
  classifierCalled : Bool
  name : Option NameRecord
  companions : List Celebrity
deriving DecidableEq, Repr

/-- Lines 91–105: base-identity computation and companion fetch for the
chosen record, then the 200 response. -/
def finishWith (db : Store) (env : Env) (classifier : Bool) (n : NameRecord) :
    HandlerResult :=
  ⟨200, db, classifier, some n, companionsByEq env.celebs (baseIdentity n.name_id)⟩

/-- The handler of src/unnamed/part_000: method check, rate limit,
field validation, debug override on `age === '999'` (fixed record
`'jisoo_지수_01'`), otherwise classification, candidate query, random
selection; every successful branch ends in the companion mapping. -/
def handler (req : ApiRequest) (db : Store) (now : Int) (env : Env) : HandlerResult :=
  if req.method ≠ "POST" then ⟨405, db, false, none, []⟩
  else
    let gate := checkRateLimit db (callerIp req) now
    let db' := gate.2
    if !gate.1 then ⟨429, db', false, none, []⟩
    else if falsy req.image || falsy req.gender || falsy req.age then
      ⟨400, db', false, none, []⟩
    else if req.age == some "999" then
      match singleByNameId env.names "jisoo_지수_01" with
      | some n => finishWith db' env false n
      | none => ⟨404, db', false, none, []⟩
    else
      match env.vision with
      | .error _ => ⟨500, db', true, none, []⟩
      | .ok faces? =>
        match faces? with
        | some [face] =>
          let cands := candidateQuery env.names (vibeTag face) (req.gender.getD "")
          match cands with
          | [] => ⟨404, db', true, none, []⟩
          | c :: cs => finishWith db' env true ((c :: cs).getD (env.pick % (c :: cs).length) c)
        | _ => ⟨400, db', true, none, []⟩

/-- A sequence of gate calls for one identity: fold `checkRateLimit`
over a list of call times, collecting the admission decisions. -/
def runCalls (db : Store) (ip : String) : List Int → List Bool
  | [] => []
  | t :: ts =>
    let r := checkRateLimit db ip t
    r.1 :: runCalls r.2 ip ts

/-- Follows the spec's words, for comparison with `callerIp`: the
"first entry of a proxy-forwarded-address header", reading the header
as a comma-separated list. -/
def specFirstForwardedEntry (header : String) : String :=
  ⟨header.data.takeWhile (fun c => c != ',')⟩

/-- A LIKE pattern fragment with no wildcard characters. -/
def plainPat (p : List Char) : Prop :=
  ∀ c ∈ p, c ≠ '%' ∧ c ≠ '_'

/-! ## Concrete fixtures used by counterexamples and witnesses -/

/-- A store row for the fixed debug name (a variant identifier). -/
def demoName : NameRecord :=
  ⟨1, "jisoo_지수_01", "지수", "Jisoo", "wisdom", "F", "friendly"⟩

/-- A celebrity row whose `name_id` strictly extends the debug name's
base identity. -/
def demoCeleb : Celebrity :=
  ⟨7, "jisoo_지수_99", "Jisoo", "Blackpink", "img"⟩

/-- A debug-mode request (sentinel age, all fields present). -/
def demoReqDebug : ApiRequest :=
  ⟨"POST", some "1.2.3.4", none, some "img", some "F", some "999"⟩

/-- An environment holding just the two fixture rows. -/
def demoEnv : Env := ⟨[demoName], [demoCeleb], .ok none, 0⟩

/-- A fresh, healthy store. -/
def freshStore : Store := ⟨[], false, false⟩

/-- A unisex record carrying the `"friendly"` vibe tag. -/
def uRec : NameRecord :=
  ⟨2, "minjun_민준", "민준", "Minjun", "clever", "U", "friendly"⟩

/-! ## Helper lemmas -/

theorem cons_prefix_char (a c : Char) (p' cs' : List Char) :
    (a :: p') <+: (c :: cs') ↔ a = c ∧ p' <+: cs' := by
  constructor
  · rintro ⟨t, ht⟩
    injection ht with h1 h2
    exact ⟨h1, t, h2⟩
  · rintro ⟨rfl, t, ht⟩
    exact ⟨t, by rw [List.cons_append, ht]⟩

theorem suffix_cons_cases (t : List Char) (c : Char) (cs : List Char) :
    t <:+ (c :: cs) ↔ t = c :: cs ∨ t <:+ cs := by
  constructor
  · rintro ⟨s, hs⟩
    cases s with
    | nil => exact Or.inl (by simpa using hs)
    | cons a s' =>
      injection hs with h1 h2
      exact Or.inr ⟨s', h2⟩
  · rintro (rfl | ⟨s, hs⟩)
    · exact ⟨[], rfl⟩
    · exact ⟨c :: s, by simp [hs]⟩

theorem infix_decomp (p l : List Char) : p <:+: l ↔ ∃ t, t <:+ l ∧ p <+: t := by
  constructor
  · rintro ⟨s, t, rfl⟩
    exact ⟨p ++ t, ⟨s, by simp⟩, ⟨t, rfl⟩⟩
  · rintro ⟨t, ⟨s, rfl⟩, ⟨r, rfl⟩⟩
    exact ⟨s, r, by simp⟩

theorem like_lone_percent (cs : List Char) : likeMatch ['%'] cs = true := by
  induction cs with
  | nil => simp [likeMatch]
  | cons c cs ih => simp [likeMatch, ih]

theorem like_plain_tail (p : List Char) (hp : plainPat p) (cs : List Char) :
    likeMatch (p ++ ['%']) cs = true ↔ p <+: cs := by
  induction p generalizing cs with
  | nil =>
    simp only [List.nil_append, like_lone_percent, true_iff]
    exact ⟨cs, rfl⟩
  | cons a p' ih =>
    have ha : a ≠ '%' ∧ a ≠ '_' := hp a (by simp)
    have hp' : plainPat p' := fun c hc => hp c (by simp [hc])
    cases cs with
    | nil =>
      rw [List.cons_append]
      simp only [likeMatch, beq_iff_eq, ha.1, if_false, Bool.and_eq_true, decide_eq_true_eq]
      constructor
      · rintro ⟨h, -⟩
        exact h.elim
      · rintro ⟨t, ht⟩
        simp at ht
    | cons c cs' =>
      rw [List.cons_append]
      simp only [likeMatch, beq_iff_eq, ha.1, if_false, Bool.and_eq_true,
        Bool.or_eq_true, cons_prefix_char]
      rw [ih hp' cs']
      have hnu : a ≠ '_' := ha.2
      constructor
      · rintro ⟨(h | h), hpre⟩
        · exact absurd h hnu
        · exact ⟨h, hpre⟩
      · rintro ⟨h, hpre⟩
        exact ⟨Or.inr h, hpre⟩

theorem like_percent_head (rest cs : List Char) :
    likeMatch ('%' :: rest) cs = true ↔ ∃ t, t <:+ cs ∧ likeMatch rest t = true := by
  induction cs with
  | nil =>
    simp only [likeMatch, beq_self_eq_true, Bool.true_and]
    constructor
    · intro h
      exact ⟨[], ⟨[], rfl⟩, h⟩
    · rintro ⟨t, ht, hm⟩
      have hn : t = [] := List.suffix_nil.mp ht
      subst hn
      exact hm
  | cons c cs' ih =>
    simp only [likeMatch, beq_self_eq_true, if_true, Bool.or_eq_true]
    rw [ih]
    constructor
    · rintro (h | ⟨t, ht, hm⟩)
      · exact ⟨c :: cs', ⟨[], rfl⟩, h⟩
      · exact ⟨t, (suffix_cons_cases t c cs').mpr (Or.inr ht), hm⟩
    · rintro ⟨t, ht, hm⟩
      rcases (suffix_cons_cases t c cs').mp ht with rfl | ht'
      · exact Or.inl hm
      · exact Or.inr ⟨t, ht', hm⟩

theorem like_both_percent (p : List Char) (hp : plainPat p) (cs : List Char) :
    likeMatch ('%' :: (p ++ ['%'])) cs = true ↔ p <:+: cs := by
  rw [like_percent_head, infix_decomp]
  constructor <;> rintro ⟨t, ht, hm⟩
  · exact ⟨t, ht, (like_plain_tail p hp t).mp hm⟩
  · exact ⟨t, ht, (like_plain_tail p hp t).mpr hm⟩

theorem likeStr_contains_iff (vibe s : String) (hp : plainPat vibe.data) :
    likeStr ("%" ++ vibe ++ "%") s = true ↔ vibe.data <:+: s.data := by
  rw [likeStr]
  have hdata : ("%" ++ vibe ++ "%").data = '%' :: (vibe.data ++ ['%']) := by
    simp [String.data_append]
  rw [hdata]
  exact like_both_percent _ hp _

theorem genderFilter_iff (gender : String) (r : NameRecord) :
    genderFilter gender r = true ↔
      (if gender = "U" then r.gender_primary = "U"
       else r.gender_primary = gender ∨ r.gender_primary = "U") := by
  by_cases hg : gender = "U" <;> simp [genderFilter, hg]

theorem recentCount_nil (ip : String) (now : Int) :
    recentCount [] ip now = 0 := rfl

theorem recentCount_cons (ip' : String) (t : Int) (es : List RateEvent)
    (ip : String) (now : Int) :
    recentCount (⟨ip', t⟩ :: es) ip now =
      (if ip' = ip ∧ now - windowMs ≤ t then 1 else 0) + recentCount es ip now := by
  by_cases h1 : ip' = ip <;> by_cases h2 : now - windowMs ≤ t <;>
    simp [recentCount, List.filter_cons, h1, h2] <;>
    split_ifs <;> simp_all <;> omega

theorem checkRateLimit_admit (db : Store) (ip : String) (now : Int)
    (hq : db.queryFails = false) (hi : db.insertFails = false)
    (h : recentCount db.events ip now < 5) :
    checkRateLimit db ip now = (true, { db with events := ⟨ip, now⟩ :: db.events }) := by
  simp [checkRateLimit, gateQuery, rateLimitStep, hq, hi, Nat.not_le.mpr h]

theorem checkRateLimit_reject (db : Store) (ip : String) (now : Int)
    (hq : db.queryFails = false)
    (h : 5 ≤ recentCount db.events ip now) :
    checkRateLimit db ip now = (false, db) := by
  simp [checkRateLimit, gateQuery, rateLimitStep, hq, h]

/-! ## C5 — the Admission Gate fails closed on a count-query error -/

/-- C5: when the count query errors, `checkRateLimit` returns `false`
and leaves the store untouched — no RateEvent is recorded. -/
theorem gate_fails_closed (db : Store) (ip : String) (now : Int)
    (h : db.queryFails = true) :
    checkRateLimit db ip now = (false, db) := by
  simp [checkRateLimit, gateQuery, rateLimitStep, h]

/-- Witness for C5 at a concrete erroring store. -/
theorem gate_fails_closed_witness :
    checkRateLimit ⟨[], true, false⟩ "1.2.3.4" 1000 = (false, ⟨[], true, false⟩) :=
  gate_fails_closed ⟨[], true, false⟩ "1.2.3.4" 1000 rfl

/-! ## C10 — null-or-low count admits; the decision ignores the insert -/

/-- C10: on a non-error count query the gate admits whenever the
returned count is null or below 5 (and issues the insert); the
admission decision is the same for every value of `insertFails`, and
when the insert fails no event is durably recorded. -/
theorem gate_admits_ignoring_insert :
    rateLimitStep (.success none) = (true, true)
  ∧ (∀ c : Nat, c < 5 → rateLimitStep (.success (some c)) = (true, true))
  ∧ (∀ db : Store, ∀ ip : String, ∀ now : Int,
      db.queryFails = false →
      recentCount db.events ip now < 5 →
      (checkRateLimit db ip now).1 = true ∧
        (db.insertFails = true → (checkRateLimit db ip now).2 = db)) := by
  refine ⟨rfl, ?_, ?_⟩
  · intro c hc
    simp [rateLimitStep, Nat.not_le.mpr hc]
  · intro db ip now hq h
    constructor
    · simp [checkRateLimit, gateQuery, rateLimitStep, hq, Nat.not_le.mpr h]
    · intro hi
      simp [checkRateLimit, gateQuery, rateLimitStep, hq, hi, Nat.not_le.mpr h]

/-- Witness for C10: a failed insert still yields `true`, with the
store unchanged. -/
theorem gate_admits_ignoring_insert_witness :
    rateLimitStep (.success (some 4)) = (true, true)
  ∧ (checkRateLimit ⟨[], false, true⟩ "a" 0).1 = true
  ∧ (checkRateLimit ⟨[], false, true⟩ "a" 0).2 = ⟨[], false, true⟩ := by
  refine ⟨gate_admits_ignoring_insert.2.1 4 (by norm_num), ?_, ?_⟩
  · exact (gate_admits_ignoring_insert.2.2 ⟨[], false, true⟩ "a" 0 rfl (by simp [recentCount])).1
  · exact (gate_admits_ignoring_insert.2.2 ⟨[], false, true⟩ "a" 0 rfl (by simp [recentCount])).2 rfl

theorem takeWhile_le_length (p : Char → Bool) (l : List Char) :
    (l.takeWhile p).length ≤ l.length := by
  induction l with
  | nil => simp
  | cons a l ih =>
    rw [List.takeWhile_cons]
    cases p a <;> simp <;> omega

theorem takeWhile_middle (p : Char → Bool) (xs ys : List Char) (y : Char)
    (hxs : ∀ c ∈ xs, p c = true) (hy : p y = false) :
    (xs ++ y :: ys).takeWhile p = xs := by
  induction xs with
  | nil => simp [List.takeWhile_cons, hy]
  | cons a xs ih =>
    have ha : p a = true := hxs a (by simp)
    simp only [List.cons_append, List.takeWhile_cons, ha, if_true]
    rw [ih (fun c hc => hxs c (by simp [hc]))]

theorem strip_length (rev rest : List Char)
    (h : stripVariantRev rev = some rest) : rest.length < rev.length := by
  unfold stripVariantRev at h
  by_cases he : (rev.takeWhile Char.isDigit).isEmpty
  · simp [he] at h
  · simp only [he, if_false] at h
    have hle := takeWhile_le_length Char.isDigit rev
    rcases hd : rev.drop (rev.takeWhile Char.isDigit).length with _ | ⟨c, rest'⟩
    · rw [hd] at h; simp at h
    · rw [hd] at h
      have hlen : rev.length - (rev.takeWhile Char.isDigit).length = rest'.length + 1 := by
        have := congrArg List.length hd
        simpa [List.length_drop] using this
      have hne : (rev.takeWhile Char.isDigit).length ≠ 0 := by
        simpa [List.isEmpty_iff_length_eq_zero] using he
      by_cases hc : c = '_'
      · subst hc; simp at h; subst h; omega
      · simp [hc] at h

theorem base_strip_append (s ds : List Char) (hne : ds ≠ [])
    (hd : ∀ c ∈ ds, c.isDigit = true) :
    baseIdentity ⟨s ++ '_' :: ds⟩ = ⟨s⟩ := by
  have hrev : (s ++ '_' :: ds).reverse = ds.reverse ++ '_' :: s.reverse := by
    simp
  have htw : (ds.reverse ++ '_' :: s.reverse).takeWhile Char.isDigit = ds.reverse :=
    takeWhile_middle _ _ _ _ (fun c hc => hd c (by simpa using hc)) (by decide)
  unfold baseIdentity stripVariantRev
  simp only [hrev, htw]
  have hne' : ds.reverse.isEmpty = false := by
    simpa [List.isEmpty_iff] using hne
  rw [hne']
  simp only [Bool.false_eq_true, if_false, List.drop_left]
  simp

theorem base_no_suffix (x : String) (h : hasVariantSuffix x = false) :
    baseIdentity x = x := by
  unfold hasVariantSuffix at h
  unfold baseIdentity
  rcases hs : stripVariantRev x.data.reverse with _ | rest
  · rfl
  · rw [hs] at h; simp at h

theorem base_ne_of_suffix (y : String) (h : hasVariantSuffix y = true) :
    baseIdentity y ≠ y := by
  unfold hasVariantSuffix at h
  rcases hs : stripVariantRev y.data.reverse with _ | rest
  · rw [hs] at h; simp at h
  · have hlt : rest.length < y.data.length := by
      have := strip_length _ _ hs
      simpa using this
    unfold baseIdentity
    rw [hs]
    intro hcon
    have hdata : rest.reverse = y.data := congrArg String.data hcon
    have hlen : rest.reverse.length = y.data.length := by rw [hdata]
    rw [List.length_reverse] at hlen
    omega

/-! ## C3 — the Identifier Normalizer and idempotence -/

/-- C3 counterexample: `baseIdentity` strips only one variant suffix
per application, so it is not idempotent: on `"a_1_2"` a second
application strips again. -/
theorem base_identity_not_idempotent :
    baseIdentity (baseIdentity "a_1_2") ≠ baseIdentity "a_1_2" := by decide

/-- C3 amended: `baseIdentity` removes one trailing
underscore-plus-digits suffix when present and is the identity
otherwise; the two spec examples hold; and a second application is a
no-op exactly when the once-stripped result carries no further variant
suffix (so idempotence holds there, and only there). -/
theorem base_identity_amended :
    (∀ (s ds : List Char), ds ≠ [] → (∀ c ∈ ds, c.isDigit = true) →
        baseIdentity ⟨s ++ '_' :: ds⟩ = ⟨s⟩)
  ∧ (∀ x : String, hasVariantSuffix x = false → baseIdentity x = x)
  ∧ (∀ x : String, baseIdentity (baseIdentity x) = baseIdentity x ↔
        hasVariantSuffix (baseIdentity x) = false)
  ∧ baseIdentity "jisoo_지수_01" = "jisoo_지수"
  ∧ baseIdentity "seojun_서준" = "seojun_서준" := by
  refine ⟨base_strip_append, base_no_suffix, ?_, by decide, by decide⟩
  intro x
  constructor
  · intro h
    by_contra hc
    exact base_ne_of_suffix _ (by simpa using hc) h
  · exact base_no_suffix _

/-- Witness for C3's amended statement at concrete strings. -/
theorem base_identity_amended_witness :
    baseIdentity "ab_12" = "ab" ∧ baseIdentity "seojun" = "seojun" := by
  constructor
  · have hs : ("ab_12" : String) = ⟨"ab".data ++ '_' :: ['1', '2']⟩ := by decide
    have hb : ("ab" : String) = ⟨"ab".data⟩ := by decide
    rw [hs, hb]
    exact base_identity_amended.1 "ab".data ['1', '2'] (by decide) (by decide)
  · exact base_identity_amended.2.1 "seojun" (by decide)

/-! ## C1 — sliding-window admission -/

/-- C1: on a healthy store the gate counts the identity's events with
timestamp at or after `now − 60 s`; a count of 5 or more is rejected
with no event recorded, a smaller count records one event at the
current time and is admitted.  Consequently, for a fresh identity,
calls 1–5 inside one 60-second window are admitted, call 6 is
rejected, and a call after the oldest event has aged out of the window
is admitted again. -/
theorem gate_window_behavior :
    (∀ db : Store, ∀ ip : String, ∀ now : Int,
        db.queryFails = false → db.insertFails = false →
        checkRateLimit db ip now =
          if 5 ≤ recentCount db.events ip now then (false, db)
          else (true, { db with events := ⟨ip, now⟩ :: db.events }))
  ∧ (∀ ip : String, ∀ t1 t2 t3 t4 t5 t6 t7 : Int,
        t1 ≤ t2 → t2 ≤ t3 → t3 ≤ t4 → t4 ≤ t5 → t5 ≤ t6 → t6 ≤ t7 →
        t6 - t1 < windowMs → t1 < t7 - windowMs → t7 - windowMs ≤ t2 →
        runCalls ⟨[], false, false⟩ ip [t1, t2, t3, t4, t5, t6, t7] =
          [true, true, true, true, true, false, true]) := by
  constructor
  · intro db ip now hq hi
    by_cases h : 5 ≤ recentCount db.events ip now
    · rw [if_pos h]
      exact checkRateLimit_reject db ip now hq h
    · rw [if_neg h]
      exact checkRateLimit_admit db ip now hq hi (Nat.lt_of_not_le h)
  · intro ip t1 t2 t3 t4 t5 t6 t7 h12 h23 h34 h45 h56 h67 hw h1out h2in
    have e1 : checkRateLimit ⟨[], false, false⟩ ip t1 =
        (true, ⟨[⟨ip, t1⟩], false, false⟩) :=
      checkRateLimit_admit _ _ _ rfl rfl (by rw [recentCount_nil]; omega)
    have e2 : checkRateLimit ⟨[⟨ip, t1⟩], false, false⟩ ip t2 =
        (true, ⟨[⟨ip, t2⟩, ⟨ip, t1⟩], false, false⟩) :=
      checkRateLimit_admit _ _ _ rfl rfl (by
        simp only [recentCount_cons, recentCount_nil, eq_self_iff_true, true_and]
        split_ifs <;> omega)
    have e3 : checkRateLimit ⟨[⟨ip, t2⟩, ⟨ip, t1⟩], false, false⟩ ip t3 =
        (true, ⟨[⟨ip, t3⟩, ⟨ip, t2⟩, ⟨ip, t1⟩], false, false⟩) :=
      checkRateLimit_admit _ _ _ rfl rfl (by
        simp only [recentCount_cons, recentCount_nil, eq_self_iff_true, true_and]
        split_ifs <;> omega)
    have e4 : checkRateLimit ⟨[⟨ip, t3⟩, ⟨ip, t2⟩, ⟨ip, t1⟩], false, false⟩ ip t4 =
        (true, ⟨[⟨ip, t4⟩, ⟨ip, t3⟩, ⟨ip, t2⟩, ⟨ip, t1⟩], false, false⟩) :=
      checkRateLimit_admit _ _ _ rfl rfl (by
        simp only [recentCount_cons, recentCount_nil, eq_self_iff_true, true_and]
        split_ifs <;> omega)
    have e5 : checkRateLimit ⟨[⟨ip, t4⟩, ⟨ip, t3⟩, ⟨ip, t2⟩, ⟨ip, t1⟩], false, false⟩ ip t5 =
        (true, ⟨[⟨ip, t5⟩, ⟨ip, t4⟩, ⟨ip, t3⟩, ⟨ip, t2⟩, ⟨ip, t1⟩], false, false⟩) :=
      checkRateLimit_admit _ _ _ rfl rfl (by
        simp only [recentCount_cons, recentCount_nil, eq_self_iff_true, true_and]
        split_ifs <;> omega)
    have e6 : checkRateLimit
        ⟨[⟨ip, t5⟩, ⟨ip, t4⟩, ⟨ip, t3⟩, ⟨ip, t2⟩, ⟨ip, t1⟩], false, false⟩ ip t6 =
        (false, ⟨[⟨ip, t5⟩, ⟨ip, t4⟩, ⟨ip, t3⟩, ⟨ip, t2⟩, ⟨ip, t1⟩], false, false⟩) :=
      checkRateLimit_reject _ _ _ rfl (by
        simp only [recentCount_cons, recentCount_nil, eq_self_iff_true, true_and]
        split_ifs <;> omega)
    have e7 : checkRateLimit
        ⟨[⟨ip, t5⟩, ⟨ip, t4⟩, ⟨ip, t3⟩, ⟨ip, t2⟩, ⟨ip, t1⟩], false, false⟩ ip t7 =
        (true, ⟨[⟨ip, t7⟩, ⟨ip, t5⟩, ⟨ip, t4⟩, ⟨ip, t3⟩, ⟨ip, t2⟩, ⟨ip, t1⟩],
          false, false⟩) :=
      checkRateLimit_admit _ _ _ rfl rfl (by
        simp only [recentCount_cons, recentCount_nil, eq_self_iff_true, true_and]
        split_ifs <;> omega)
    simp only [runCalls, e1, e2, e3, e4, e5, e6, e7]

/-- Witness for C1: six calls in the same minute from one address,
then one more after the first call has aged out. -/
theorem gate_window_behavior_witness :
    runCalls ⟨[], false, false⟩ "1.1.1.1" [0, 2, 3, 4, 5, 6, 60001] =
      [true, true, true, true, true, false, true] :=
  gate_window_behavior.2 "1.1.1.1" 0 2 3 4 5 6 60001
    (by omega) (by omega) (by omega) (by omega) (by omega) (by omega)
    (by norm_num [windowMs]) (by norm_num [windowMs]) (by norm_num [windowMs])

/-! ## C4 — Vibe Classifier priority -/

/-- C4: the classifier returns `"friendly"` when joy is high, else
`"calm"` when sorrow is high, else `"cool"` when anger is high, else
`"friendly"`; joy beats sorrow, lone likely sorrow gives `"calm"`, and
all-unlikely gives the default. -/
theorem classifier_priority (face : FaceAnnotation) :
    (isHigh face.joyLikelihood = true → vibeTag face = "friendly")
  ∧ (isHigh face.joyLikelihood = false → isHigh face.sorrowLikelihood = true →
      vibeTag face = "calm")
  ∧ (isHigh face.joyLikelihood = false → isHigh face.sorrowLikelihood = false →
      isHigh face.angerLikelihood = true → vibeTag face = "cool")
  ∧ (isHigh face.joyLikelihood = false → isHigh face.sorrowLikelihood = false →
      isHigh face.angerLikelihood = false → vibeTag face = "friendly")
  ∧ vibeTag ⟨"VERY_LIKELY", "VERY_LIKELY", "UNLIKELY"⟩ = "friendly"
  ∧ vibeTag ⟨"UNLIKELY", "LIKELY", "UNLIKELY"⟩ = "calm"
  ∧ vibeTag ⟨"UNLIKELY", "UNLIKELY", "UNLIKELY"⟩ = "friendly" := by
  refine ⟨?_, ?_, ?_, ?_, by decide, by decide, by decide⟩ <;>
    intros <;> simp_all [vibeTag]

/-- Witness for C4 at a concrete all-signals face. -/
theorem classifier_priority_witness :
    vibeTag ⟨"UNLIKELY", "POSSIBLE", "VERY_LIKELY"⟩ = "cool" :=
  (classifier_priority ⟨"UNLIKELY", "POSSIBLE", "VERY_LIKELY"⟩).2.2.1
    (by decide) (by decide) (by decide)

/-! ## C8 — the candidate query's gender predicate -/

/-- C8 counterexample: with preference `"M"` the query also selects a
record whose `gender_primary` is `"U"`, so membership is not gender
equality for Male/Female preferences. -/
theorem candidate_query_includes_unisex :
    candidateQuery [uRec] "friendly" "M" = [uRec] ∧ uRec.gender_primary ≠ "M" := by
  constructor
  · simp [candidateQuery, likeStr, likeMatch, genderFilter, uRec]
  · decide

/-- C8 amended: the candidate query selects exactly the records whose
`vibe_tags` contains the vibe as a substring and whose
`gender_primary` is `"U"` (preference Unisex) or lies in
{preference, `"U"`} (preference Male/Female); no separate unisex flag
is consulted. -/
theorem candidate_query_amended (names : List NameRecord) (vibe gender : String)
    (r : NameRecord) (hv : vibe ∈ (["friendly", "calm", "cool"] : List String)) :
    r ∈ candidateQuery names vibe gender ↔
      r ∈ names ∧ vibe.data <:+: r.vibe_tags.data ∧
        (if gender = "U" then r.gender_primary = "U"
         else r.gender_primary = gender ∨ r.gender_primary = "U") := by
  have hplain : plainPat vibe.data := by
    simp only [List.mem_cons, List.not_mem_nil, or_false] at hv
    unfold plainPat
    rcases hv with rfl | rfl | rfl
    · decide
    · decide
    · decide
  rw [candidateQuery, List.mem_filter, Bool.and_eq_true,
    likeStr_contains_iff vibe _ hplain, genderFilter_iff]

/-- Witness for C8's amended statement: the unisex record is selected
under preference `"M"`. -/
theorem candidate_query_amended_witness :
    uRec ∈ candidateQuery [uRec] "friendly" "M" := by
  refine (candidate_query_amended [uRec] "friendly" "M" uRec (by simp)).mpr
    ⟨by simp, ?_, by simp [uRec]⟩
  exact ⟨[], [], by simp [uRec]⟩

/-! ## C9 — caller identity derivation -/

/-- C9 counterexample: with a multi-entry forwarded header the code
uses the whole header value, not its first entry. -/
theorem caller_ip_not_first_entry :
    callerIp ⟨"POST", some "1.2.3.4, 5.6.7.8", some "9.9.9.9", none, none, none⟩ =
      "1.2.3.4, 5.6.7.8"
  ∧ specFirstForwardedEntry "1.2.3.4, 5.6.7.8" = "1.2.3.4"
  ∧ callerIp ⟨"POST", some "1.2.3.4, 5.6.7.8", some "9.9.9.9", none, none, none⟩ ≠
      specFirstForwardedEntry "1.2.3.4, 5.6.7.8" := by
  refine ⟨rfl, by decide, by decide⟩

/-- C9 amended: the caller identity is the entire forwarded-header
value when present and non-empty, else the connection address when
present and non-empty, else `"127.0.0.1"`. -/
theorem caller_ip_amended (req : ApiRequest) :
    (∀ s : String, req.xForwardedFor = some s → s.isEmpty = false → callerIp req = s)
  ∧ ((req.xForwardedFor = none ∨ req.xForwardedFor = some "") →
      ∀ r : String, req.remoteAddress = some r → r.isEmpty = false → callerIp req = r)
  ∧ ((req.xForwardedFor = none ∨ req.xForwardedFor = some "") →
      (req.remoteAddress = none ∨ req.remoteAddress = some "") →
      callerIp req = "127.0.0.1") := by
  refine ⟨?_, ?_, ?_⟩
  · intro s hs hne
    simp [callerIp, hs, hne]
  · rintro (h | h) r hr hne <;>
      simp [callerIp, h, hr, hne, show ("" : String).isEmpty = true from rfl]
  · rintro (h | h) (h2 | h2) <;>
      simp [callerIp, h, h2, show ("" : String).isEmpty = true from rfl]

/-- Witness for C9's amended statement. -/
theorem caller_ip_amended_witness :
    callerIp ⟨"POST", some "7.7.7.7", none, none, none, none⟩ = "7.7.7.7" :=
  (caller_ip_amended ⟨"POST", some "7.7.7.7", none, none, none, none⟩).1
    "7.7.7.7" rfl rfl

/-! ## C6 — ordering of the gate and validation -/

/-- C6 counterexample: a request with the gender field missing is
reported as invalid, yet a RateEvent has already been recorded for it
— the Admission Gate runs before field validation. -/
theorem invalid_input_still_charged :
    (handler ⟨"POST", some "1.2.3.4", none, some "img", none, some "20"⟩
        freshStore 0 ⟨[], [], .ok none, 0⟩).status = 400
  ∧ (handler ⟨"POST", some "1.2.3.4", none, some "img", none, some "20"⟩
        freshStore 0 ⟨[], [], .ok none, 0⟩).db.events = [⟨"1.2.3.4", 0⟩] := by
  constructor <;> decide

/-- C6 amended: the gate runs first — an admitted request that then
fails field validation has already been charged one RateEvent and is
answered 400 without touching the classifier; a rate-limited request
is answered 429 and its image is never submitted to the classifier. -/
theorem gate_runs_before_validation :
    (∀ (req : ApiRequest) (db : Store) (now : Int) (env : Env),
        req.method = "POST" → db.queryFails = false → db.insertFails = false →
        recentCount db.events (callerIp req) now < 5 →
        (falsy req.image || falsy req.gender || falsy req.age) = true →
        handler req db now env =
          ⟨400, { db with events := ⟨callerIp req, now⟩ :: db.events }, false, none, []⟩)
  ∧ (∀ (req : ApiRequest) (db : Store) (now : Int) (env : Env),
        req.method = "POST" →
        (checkRateLimit db (callerIp req) now).1 = false →
        (handler req db now env).status = 429 ∧
        (handler req db now env).classifierCalled = false) := by
  constructor
  · intro req db now env hm hq hi hcount hval
    have hg := checkRateLimit_admit db (callerIp req) now hq hi hcount
    simp [handler, hm, hg, hval]
  · intro req db now env hm hfail
    simp [handler, hm, hfail]

/-- Witness for C6's amended statement: one admitted-but-invalid
request, and one rate-limited request. -/
theorem gate_runs_before_validation_witness :
    handler ⟨"POST", some "8.8.8.8", none, none, some "F", some "20"⟩
        freshStore 3 ⟨[], [], .ok none, 0⟩ =
      ⟨400, ⟨[⟨"8.8.8.8", 3⟩], false, false⟩, false, none, []⟩
  ∧ (handler ⟨"POST", some "8.8.8.8", none, none, some "F", some "20"⟩
        ⟨[⟨"8.8.8.8", 0⟩, ⟨"8.8.8.8", 0⟩, ⟨"8.8.8.8", 0⟩, ⟨"8.8.8.8", 0⟩, ⟨"8.8.8.8", 0⟩],
          false, false⟩ 3 ⟨[], [], .ok none, 0⟩).status = 429 := by
  constructor
  · exact gate_runs_before_validation.1 _ freshStore 3 _ rfl rfl rfl
      (by decide) (by decide)
  · refine (gate_runs_before_validation.2 _ _ 3 ⟨[], [], .ok none, 0⟩ rfl ?_).1
    decide

/-! ## C7 — the debug override -/

/-- C7 counterexample: with the sentinel age but an absent image the
handler answers 400 InvalidInput — it does not return the fixed debug
record, because field validation precedes the override check. -/
theorem debug_without_image_rejected :
    (handler ⟨"POST", some "9.9.9.9", none, none, some "F", some "999"⟩
        freshStore 0 demoEnv).status = 400
  ∧ (handler ⟨"POST", some "9.9.9.9", none, none, some "F", some "999"⟩
        freshStore 0 demoEnv).name = none := by
  constructor <;> decide

/-- C7 amended: for an admitted request with all fields present and
the sentinel age, the handler bypasses the classifier and returns the
fixed record `'jisoo_지수_01'` with its companions (status 200), or
404 when that record is not in the store; an absent image never
reaches the override. -/
theorem debug_override_amended (req : ApiRequest) (db : Store) (now : Int) (env : Env)
    (hm : req.method = "POST") (hq : db.queryFails = false) (hi : db.insertFails = false)
    (hcount : recentCount db.events (callerIp req) now < 5)
    (himg : falsy req.image = false) (hgen : falsy req.gender = false)
    (hage : req.age = some "999") :
    (handler req db now env).classifierCalled = false
  ∧ (∀ n, singleByNameId env.names "jisoo_지수_01" = some n →
      (handler req db now env).status = 200 ∧
      (handler req db now env).name = some n ∧
      (handler req db now env).companions =
        companionsByEq env.celebs (baseIdentity n.name_id))
  ∧ (singleByNameId env.names "jisoo_지수_01" = none →
      (handler req db now env).status = 404 ∧ (handler req db now env).name = none) := by
  have hg := checkRateLimit_admit db (callerIp req) now hq hi hcount
  have hfa : falsy req.age = false := by rw [hage]; rfl
  have hfa9 : falsy (some "999") = false := rfl
  refine ⟨?_, ?_, ?_⟩
  · rcases hs : singleByNameId env.names "jisoo_지수_01" with _ | n <;>
      simp [handler, finishWith, hm, hg, himg, hgen, hfa, hfa9, hage, hs]
  · intro n hs
    simp [handler, finishWith, hm, hg, himg, hgen, hfa, hfa9, hage, hs]
  · intro hs
    simp [handler, hm, hg, himg, hgen, hfa, hfa9, hage, hs]

/-- Witness for C7's amended statement with the fixture store. -/
theorem debug_override_amended_witness :
    (handler demoReqDebug freshStore 0 demoEnv).status = 200 ∧
    (handler demoReqDebug freshStore 0 demoEnv).name = some demoName := by
  have h := debug_override_amended demoReqDebug freshStore 0 demoEnv rfl rfl rfl
    (by decide) rfl rfl rfl
  have h2 := h.2.1 demoName (by decide)
  exact ⟨h2.1, h2.2.1⟩

/-! ## C2 — write-path vs read-path companion resolution -/

/-- C2: the write path resolves companions by exact equality with the
base identity while the read path uses a LIKE prefix match, so for the
same stored NameRecord the two paths can return different companion
sets: with one celebrity row `'jisoo_지수_99'`, the write path returns
no companion for `'jisoo_지수_01'` while `resolveShared` returns that
row — the sets are not equal up to permutation. -/
theorem companion_paths_disagree :
    (handler demoReqDebug freshStore 0 demoEnv).status = 200
  ∧ (handler demoReqDebug freshStore 0 demoEnv).name = some demoName
  ∧ (handler demoReqDebug freshStore 0 demoEnv).companions = []
  ∧ resolveShared [demoName] [demoCeleb] demoName.id = some (demoName, [demoCeleb])
  ∧ ¬ List.Perm (handler demoReqDebug freshStore 0 demoEnv).companions [demoCeleb] := by
  have hbase : baseIdentity demoName.name_id = "jisoo_지수" := by decide
  have hlike : companionsByLike [demoCeleb] "jisoo_지수" = [demoCeleb] := by
    simp [companionsByLike, likeStr, likeMatch, demoCeleb]
  have hres : resolveShared [demoName] [demoCeleb] demoName.id =
      some (demoName, [demoCeleb]) := by
    simp only [resolveShared,
      show singleById [demoName] demoName.id = some demoName from by decide,
      hbase, hlike]
  refine ⟨by decide, by decide, by decide, hres, ?_⟩
  rw [show (handler demoReqDebug freshStore 0 demoEnv).companions = [] from by decide]
  intro hperm
  have := hperm.length_eq
  simp at this

end KrName
